import Mathlib

/-!
Verification of the surrounding-property workflow and geographic
distance/direction engine of the environmental-assessment-assistant
repository.  The Python sources `services/distance.py`,
`routers/testing.py` and `prompts/edr_summarization.py` are shallowly
embedded below: numbers are rationals, Python dictionaries become
structures, external collaborators (shapely, geographiclib, the geocoding
HTTP API and the LLM summarizers) become explicit function parameters or
oracle values, and Python exceptions become `Except`/`Option` values.
-/

namespace EnvAssess

/-! ### Python numeric primitives -/

/-- Python `round` (banker's rounding, round-half-to-even) on a rational. -/
def pythonRound (x : ℚ) : ℤ :=
  if x - (⌊x⌋ : ℚ) < 1/2 then ⌊x⌋
  else if 1/2 < x - (⌊x⌋ : ℚ) then ⌊x⌋ + 1
  else if ⌊x⌋ % 2 = 0 then ⌊x⌋ else ⌊x⌋ + 1

/-- Python `round(x, 1)` : round to one decimal place. -/
def round1 (x : ℚ) : ℚ := (pythonRound (x * 10) : ℚ) / 10

/-- Python `x % 360.0` for a positive modulus: result in `[0, 360)`. -/
def pyMod360 (x : ℚ) : ℚ := x - 360 * (⌊x / 360⌋ : ℚ)

theorem pythonRound_ge_floor (x : ℚ) : ⌊x⌋ ≤ pythonRound x := by
  unfold pythonRound
  split
  · exact le_refl _
  · split
    · omega
    · split <;> omega

theorem pythonRound_le_floor_add_one (x : ℚ) : pythonRound x ≤ ⌊x⌋ + 1 := by
  unfold pythonRound
  split
  · omega
  · split
    · omega
    · split <;> omega

theorem pyMod360_nonneg (x : ℚ) : 0 ≤ pyMod360 x := by
  unfold pyMod360
  have h := Int.floor_le (x / 360)
  have h360 : (0:ℚ) < 360 := by norm_num
  nlinarith [h, h360]

theorem pyMod360_lt (x : ℚ) : pyMod360 x < 360 := by
  unfold pyMod360
  have h := Int.lt_floor_add_one (x / 360)
  nlinarith [h]

/-! ### GeographicCalculator (`services/distance.py`, lines 117-160)

The geometry library (shapely) and the geodesic solver (geographiclib)
are external collaborators; they enter the embedding as the abstract
operations of a `GeoLib`.  `distance_and_direction` itself — the branch
structure, normalization, and compass quantization — is translated
directly from the source. -/

/-- A geographic point: `x` is longitude, `y` latitude (shapely order). -/
structure Point where
  x : ℚ
  y : ℚ
deriving DecidableEq, Repr

/-- Result of `Geodesic.WGS84.Inverse`: geodesic distance `s12` in
meters and initial azimuth `azi1` in degrees. -/
structure GeoInv where
  s12 : ℚ
  azi1 : ℚ
deriving DecidableEq, Repr

/-- The external geometry/geodesic operations used by
`GeographicCalculator`: shapely's `nearest_points` and
`representative_point`, and geographiclib's `Inverse`. -/
structure GeoLib (γ : Type) where
  nearestPoints : γ → γ → Point × Point
  inverse : Point → Point → GeoInv
  representativePoint : γ → Point

/-- `GeographicCalculator._compass_label`: quantize a bearing to a
compass name.  `names[sector]` with `sector = round(bearing/(360/len)) % len`. -/
def compass_label (bearing_degrees : ℚ) (num_points : ℕ) : String :=
  let names : List String :=
    if num_points = 8 then ["N", "NE", "E", "SE", "S", "SW", "W", "NW"]
    else ["N", "NNE", "NE", "ENE", "E", "ESE", "SE", "SSE",
          "S", "SSW", "SW", "WSW", "W", "WNW", "NW", "NNW"]
  let sector : ℕ :=
    ((pythonRound (bearing_degrees / (360 / (names.length : ℚ)))) % (names.length : ℤ)).toNat
  names.getD sector "N"

/-- `GeographicCalculator._azimuth_degrees`: normalized initial azimuth
between two points. -/
def azimuth_degrees {γ : Type} (L : GeoLib γ) (p q : Point) : ℚ :=
  pyMod360 ((L.inverse p q).azi1 + 360)

/-- `GeographicCalculator.distance_and_direction`: nearest-point geodesic
distance and bearing, with a representative-point fallback below the
zero threshold. -/
def distance_and_direction {γ : Type} (L : GeoLib γ) (geometry1 geometry2 : γ)
    (zero_threshold_m : ℚ) (compass_points : ℕ) : ℚ × ℚ × String :=
  let pq := L.nearestPoints geometry1 geometry2
  let inv := L.inverse pq.1 pq.2
  let distance_m := inv.s12
  if zero_threshold_m ≤ distance_m then
    let bearing := pyMod360 (inv.azi1 + 360)
    (distance_m, bearing, compass_label bearing compass_points)
  else
    let r1 := L.representativePoint geometry1
    let r2 := L.representativePoint geometry2
    let bearing := azimuth_degrees L r1 r2
    let inv2 := L.inverse r1 r2
    (inv2.s12, bearing, compass_label bearing compass_points)

/-! ### PreciselyDistanceCalculator (`services/distance.py`, lines 162-213)

`GeocodeService.get_geometry` performs an HTTP lookup and returns
`Optional[Dict]`; it appears here as an abstract `geocode` function.
`distance_and_direction` can raise inside the `try` block (shapely /
geographiclib exceptions), so the call is abstracted as a function `dd`
returning `Except`; the pure embedding above is plugged in through
`ddOf`.  A Python `raise RuntimeError` becomes `Except.error`. -/

/-- One entry of the `distances` list built by `calculate_distances`. -/
structure DistanceResult where
  address : String
  distance_ft : ℚ
  direction : String
  bearing_deg : ℚ
deriving DecidableEq, Repr

/-- One entry of the `failed` list built by `calculate_distances`. -/
structure FailureRecord where
  address : String
  error : String
deriving DecidableEq, Repr

/-- The dictionary returned by `calculate_distances`. -/
structure DistanceBatch where
  subject_address : String
  distances : List DistanceResult
  failed : List FailureRecord
deriving DecidableEq, Repr

/-- Body of the `for address in surrounding_addresses` loop of
`calculate_distances`: route one address into `results` or `failed`. -/
def addrStep {γ : Type} (geocode : String → Option γ)
    (dd : γ → γ → Except String (ℚ × ℚ × String)) (subject_geometry : γ)
    (acc : List DistanceResult × List FailureRecord) (address : String) :
    List DistanceResult × List FailureRecord :=
  match geocode address with
  | none => (acc.1, acc.2 ++ [⟨address, "Geocoding failed"⟩])
  | some geometry =>
    match dd subject_geometry geometry with
    | .ok (distance_m, bearing_deg, direction) =>
        (acc.1 ++ [⟨address, round1 (distance_m * (328084/100000)), direction,
                    round1 bearing_deg⟩], acc.2)
    | .error e => (acc.1, acc.2 ++ [⟨address, "Distance calculation failed: " ++ e⟩])

/-- `PreciselyDistanceCalculator.calculate_distances`. -/
def calculate_distances {γ : Type} (geocode : String → Option γ)
    (dd : γ → γ → Except String (ℚ × ℚ × String))
    (subject_address : String) (surrounding_addresses : List String) :
    Except String DistanceBatch :=
  match geocode subject_address with
  | none => .error ("Could not geocode subject address: " ++ subject_address)
  | some subject_geometry =>
    let rf := surrounding_addresses.foldl (addrStep geocode dd subject_geometry) ([], [])
    .ok ⟨subject_address, rf.1, rf.2⟩

/-- The distance call as `calculate_distances` actually makes it:
`distance_and_direction` with its default arguments
`zero_threshold_m = 1.0`, `compass_points = 8`, never raising in the
idealized geometry model. -/
def ddOf {γ : Type} (L : GeoLib γ) : γ → γ → Except String (ℚ × ℚ × String) :=
  fun g1 g2 => .ok (distance_and_direction L g1 g2 1 8)

/-! ### Python string primitives

Implemented over `List Char` (Python strings are character sequences;
`len`, slicing and `in` are character-based). -/

/-- Python substring test `needle in haystack` on character lists. -/
def substrList (needle : List Char) : List Char → Bool
  | [] => needle.isEmpty
  | c :: t => needle.isPrefixOf (c :: t) || substrList needle t

/-- Python `needle in haystack` on strings. -/
def pyIn (needle haystack : String) : Bool := substrList needle.data haystack.data

/-- Python `str.lower()` (ASCII inputs). -/
def pyLower (s : String) : String := ⟨s.data.map Char.toLower⟩

/-- Python `str.strip()`: drop leading and trailing whitespace. -/
def pyStrip (s : String) : String :=
  ⟨((s.data.dropWhile Char.isWhitespace).reverse.dropWhile Char.isWhitespace).reverse⟩

/-- Python `s.split(',')` on a character list. -/
def splitComma : List Char → List (List Char)
  | [] => [[]]
  | c :: t =>
    if c = ',' then [] :: splitComma t
    else
      match splitComma t with
      | [] => [[c]]
      | h :: r => (c :: h) :: r

/-- Python `s.split(',')` on strings. -/
def pySplitComma (s : String) : List String := (splitComma s.data).map (fun l => ⟨l⟩)

/-- Python `s.replace(".", "")`. -/
def removeDots (s : String) : String := ⟨s.data.filter (fun c => !(c == '.'))⟩

/-! ### Session state machine (`routers/testing.py`)

The WebSocket session dictionary becomes a structure (the two
awaiting-flags, absent keys in Python until first set, are `Bool` fields
starting `false`; `session.get` of an absent key is falsy).  External
collaborators — extraction, formatting, the summarizers and the distance
calculator — appear as oracle values carried by each event, so one
`step` call captures exactly one fully-handled inbound message. -/

/-- The per-connection session dictionary (`testing.py`, lines 353-360). -/
structure Session where
  report_type : Option String
  main_document : Option String
  surrounding_documents : List String
  subject_address : Option String
  section_content : Option String
  surrounding_addresses : Option (List String)
  workflow_stage : String
  surrounding_section : Option String
  awaiting_addresses : Bool
  awaiting_groundwater : Bool
deriving DecidableEq, Repr

/-- The session created when a connection is accepted. -/
def initialSession : Session :=
  { report_type := none
    main_document := none
    surrounding_documents := []
    subject_address := none
    section_content := none
    surrounding_addresses := none
    workflow_stage := "awaiting_report_selection"
    surrounding_section := none
    awaiting_addresses := false
    awaiting_groundwater := false }

/-- `clear_session` (lines 385-396): reset every field unconditionally. -/
def clear_session (_s : Session) : Session := initialSession

/-- Python truthiness of an optional string (`None` and `""` are falsy). -/
def optStrTruthy : Option String → Bool
  | none => false
  | some s => !(s == "")

/-- Python truthiness of the optional surrounding-address list. -/
def addrTruthy : Option (List String) → Bool
  | none => false
  | some l => !l.isEmpty

/-- `extract_groundwater_direction` pattern table (lines 511-516; Python
dict preserves insertion order, which is the iteration order). -/
def direction_patterns : List (String × String) :=
  [("north", "N"), ("south", "S"), ("east", "E"), ("west", "W"),
   ("northeast", "NE"), ("northwest", "NW"), ("southeast", "SE"), ("southwest", "SW"),
   ("ne", "NE"), ("nw", "NW"), ("se", "SE"), ("sw", "SW"),
   ("n ", "N"), ("e ", "E"), ("s ", "S"), ("w ", "W")]

/-- `extract_groundwater_direction` (lines 507-522): first pattern that
occurs as a substring of the lowercased message wins. -/
def extract_groundwater_direction (text : String) : Option String :=
  let text_lower := pyLower text
  (direction_patterns.find? (fun p => pyIn p.1 text_lower)).map Prod.snd

/-- Lines 574-575 of `handle_intelligent_chat`: split the message on
commas, strip each entry, keep the truthy entries longer than 10
characters. -/
def parse_addresses (user_question : String) : List String :=
  ((pySplitComma user_question).map pyStrip).filter
    (fun addr => (!(addr == "")) && decide (10 < addr.data.length))

/-- The surrounding-section trigger phrases (lines 532-540), determined
by `session.get("report_type", "EDR")`.  Note the session is created
with `report_type = None`, so the default `"EDR"` is never used; `None`
compares unequal to `"EDR"`. -/
def sectionTriggers (report_type : Option String) : List String :=
  let surrounding_section := if report_type == some "EDR" then "5.2.2" else "5.2.4"
  [surrounding_section, removeDots surrounding_section, "surrounding properties"] ++
    (if report_type == some "EDR" then ["generate 5.2.2", "section 5.2.2"]
     else ["generate 5.2.4", "section 5.2.4"])

/-- Line 542: `any(phrase in user_question.lower() for phrase in section_triggers)`. -/
def triggerHit (report_type : Option String) (user_question : String) : Bool :=
  (sectionTriggers report_type).any (fun phrase => pyIn phrase (pyLower user_question))

/-- `handle_intelligent_chat` (lines 524-708), restricted to its effect
on the session.  `tryOutcome` is the outcome of the `try` block of the
groundwater branch (distance computation plus section generation):
`.ok` carries the generated section, `.error` a raised exception's
message.  The general question-answering path mutates nothing. -/
def handle_intelligent_chat (s : Session) (content : String)
    (tryOutcome : Except String String) : Session :=
  let user_question := pyStrip content
  if s.main_document.isSome = false then s
  else if triggerHit s.report_type user_question then
    if optStrTruthy s.section_content = false then s
    else if optStrTruthy s.subject_address = false then s
    else if s.surrounding_documents.isEmpty then s
    else if addrTruthy s.surrounding_addresses = false then
      { s with awaiting_addresses := true }
    else
      { s with awaiting_groundwater := true }
  else if s.awaiting_addresses then
    let addresses := parse_addresses user_question
    if !addresses.isEmpty then
      { s with surrounding_addresses := some addresses,
               awaiting_addresses := false, awaiting_groundwater := true }
    else s
  else if s.awaiting_groundwater then
    match extract_groundwater_direction user_question with
    | some _ =>
      match tryOutcome with
      | .ok result =>
          { s with surrounding_section := some result, awaiting_groundwater := false }
      | .error _ => { s with awaiting_groundwater := false }
    | none => s
  else s

/-- Result of a summarizer call for the main document: line 475
distinguishes a dict result (with optional `section_content` and
`subject_address` entries) from a plain string. -/
inductive SummResult where
  | dict (section_content : Option String) (subject_address : Option String)
  | plain (text : String)
deriving DecidableEq, Repr

/-- Outcomes of the external calls made while handling one upload:
whether extraction produced text, whether formatting succeeded
(exceptions inside the `try` before the branch), the formatted text, and
the summarizer outcome for a main-document upload. -/
structure UploadOracle where
  extract_ok : Bool
  format_ok : Bool
  formatted : String
  mainResult : Except String SummResult

/-- `process_pdf` (lines 398-505), restricted to its effect on the
session.  `report_type` is set before the `try` block, so it survives
every failure; a summarizer exception leaves `main_document` unset
because the assignment at line 467 happens after the call returns. -/
def process_pdf (s : Session) (reportType : String) (o : UploadOracle) : Session :=
  let s1 := { s with report_type := some reportType }
  if o.extract_ok = false then s1
  else if o.format_ok = false then s1
  else if s1.main_document.isSome = false then
    match o.mainResult with
    | .error _ => s1
    | .ok (.dict sc sa) =>
        { s1 with main_document := some o.formatted, section_content := sc,
                  subject_address := sa, workflow_stage := "can_upload_surrounding" }
    | .ok (.plain t) =>
        { s1 with main_document := some o.formatted, section_content := some t,
                  workflow_stage := "can_upload_surrounding" }
  else
    { s1 with surrounding_documents := s1.surrounding_documents ++ [o.formatted] }

/-- One inbound WebSocket message (lines 365-380), tagged by `type`,
bundled with the oracle values for the external calls its handling makes. -/
inductive Event where
  | file_upload (reportType : String) (oracle : UploadOracle)
  | chat (content : String) (tryOutcome : Except String String)
  | clear_event

/-- Dispatch of one inbound message (lines 372-377). -/
def step (s : Session) : Event → Session
  | .file_upload rt o => process_pdf s rt o
  | .chat c t => handle_intelligent_chat s c t
  | .clear_event => clear_session s

/-- The session reached after a sequence of inbound messages. -/
def runEvents (evs : List Event) : Session := evs.foldl step initialSession

/-! ### Gradient classifier -/

/-- The three gradient relations of §5.2.2 reports. -/
inductive Gradient where
  | Downgradient
  | Upgradient
  | CrossGradient
deriving DecidableEq, Repr

/-- The 8-point compass rose used by `compass_label` with `num_points = 8`. -/
def compassRose8 : List String := ["N", "NE", "E", "SE", "S", "SW", "W", "NW"]

/-- The 180°-opposite of an 8-point compass label. -/
def opposite8 : String → String
  | "N" => "S"
  | "S" => "N"
  | "E" => "W"
  | "W" => "E"
  | "NE" => "SW"
  | "SW" => "NE"
  | "NW" => "SE"
  | "SE" => "NW"
  | d => d

/-- Modelled from the spec: the repository performs gradient
classification only as natural-language instructions inside the LLM
prompt built by `build_section_522_prompt`
(`prompts/edr_summarization.py`, lines 152-167); no executable
classifier exists in the source.  Following the spec's §4.4: equal
directions are Downgradient, exact 180°-opposites are Upgradient,
everything else is Cross-gradient. -/
def classify_gradient (property_dir flow_dir : String) : Gradient :=
  if property_dir = flow_dir then .Downgradient
  else if property_dir = opposite8 flow_dir then .Upgradient
  else .CrossGradient

/-- The opposite pairs of the 8-point compass rose, as listed by the spec. -/
def oppositePairs8 : List (String × String) :=
  [("N", "S"), ("S", "N"), ("E", "W"), ("W", "E"),
   ("NE", "SW"), ("SW", "NE"), ("NW", "SE"), ("SE", "NW")]

/-! ### Theorems -/

/-- The 16-point compass rose used by `compass_label` with `num_points = 16`. -/
def compassRose16 : List String :=
  ["N", "NNE", "NE", "ENE", "E", "ESE", "SE", "SSE",
   "S", "SSW", "SW", "WSW", "W", "WNW", "NW", "NNW"]

theorem pythonRound_nonneg {x : ℚ} (hx : 0 ≤ x) : 0 ≤ pythonRound x := by
  have h1 := pythonRound_ge_floor x
  have h2 : (0 : ℤ) ≤ ⌊x⌋ := Int.floor_nonneg.mpr hx
  omega

/-- C4: over the 8-point compass rose, the gradient classification is
Downgradient exactly on equal directions, Upgradient exactly on the four
opposite pairs N/S, E/W, NE/SW, NW/SE, and Cross-gradient on every other
pair. -/
theorem gradient_classification_table (d g : String)
    (hd : d ∈ compassRose8) (hg : g ∈ compassRose8) :
    (classify_gradient d g = Gradient.Downgradient ↔ d = g) ∧
    (classify_gradient d g = Gradient.Upgradient ↔ (d, g) ∈ oppositePairs8) ∧
    (classify_gradient d g = Gradient.CrossGradient ↔
      (d ≠ g ∧ (d, g) ∉ oppositePairs8)) := by
  fin_cases hd <;> fin_cases hg <;> decide

/-- Witness for C4: flow east, property west is Upgradient. -/
theorem gradient_classification_table_witness :
    "W" ∈ compassRose8 ∧ "E" ∈ compassRose8 ∧
      classify_gradient "W" "E" = Gradient.Upgradient := by
  refine ⟨by decide, by decide, ?_⟩
  exact (gradient_classification_table "W" "E" (by decide) (by decide)).2.1.mpr (by decide)

theorem pythonRound_intCast (n : ℤ) : pythonRound ((n : ℚ)) = n := by
  unfold pythonRound
  simp

theorem compass_label_8_def (b : ℚ) :
    compass_label b 8 = compassRose8.getD ((pythonRound (b / (360 / 8)) % 8).toNat) "N" := by
  unfold compass_label compassRose8
  norm_num

theorem compass_label_16_def (b : ℚ) :
    compass_label b 16 =
      compassRose16.getD ((pythonRound (b / (360 / 16)) % 16).toNat) "N" := by
  unfold compass_label compassRose16
  norm_num

/-- C3: for a bearing in `[0, 360)`, `compass_label` returns the rose
name at index `round(b / (360/num_points)) % num_points` (N centered at
0°), for both the 8-point and 16-point roses; in particular 0° ↦ N,
90° ↦ E, 180° ↦ S, 270° ↦ W, 45° ↦ NE. -/
theorem compass_label_quantization (b : ℚ) (h0 : 0 ≤ b) (h1 : b < 360) :
    ((pythonRound (b / (360 / 8))).toNat % 8 < 8 ∧
      compass_label b 8 = compassRose8.getD ((pythonRound (b / (360 / 8))).toNat % 8) "N") ∧
    ((pythonRound (b / (360 / 16))).toNat % 16 < 16 ∧
      compass_label b 16 =
        compassRose16.getD ((pythonRound (b / (360 / 16))).toNat % 16) "N") ∧
    compass_label 0 8 = "N" ∧ compass_label 90 8 = "E" ∧ compass_label 180 8 = "S" ∧
    compass_label 270 8 = "W" ∧ compass_label 45 8 = "NE" := by
  have hb8 : (0 : ℚ) ≤ b / (360 / 8) := by positivity
  have hb16 : (0 : ℚ) ≤ b / (360 / 16) := by positivity
  have hr8 := pythonRound_nonneg hb8
  have hr16 := pythonRound_nonneg hb16
  refine ⟨⟨Nat.mod_lt _ (by norm_num), ?_⟩, ⟨Nat.mod_lt _ (by norm_num), ?_⟩, ?_, ?_, ?_, ?_, ?_⟩
  · rw [compass_label_8_def]
    congr 1
    omega
  · rw [compass_label_16_def]
    congr 1
    omega
  · rw [compass_label_8_def, show (0 : ℚ) / (360 / 8) = ((0 : ℤ) : ℚ) by norm_num,
      pythonRound_intCast]
    decide
  · rw [compass_label_8_def, show (90 : ℚ) / (360 / 8) = ((2 : ℤ) : ℚ) by norm_num,
      pythonRound_intCast]
    decide
  · rw [compass_label_8_def, show (180 : ℚ) / (360 / 8) = ((4 : ℤ) : ℚ) by norm_num,
      pythonRound_intCast]
    decide
  · rw [compass_label_8_def, show (270 : ℚ) / (360 / 8) = ((6 : ℤ) : ℚ) by norm_num,
      pythonRound_intCast]
    decide
  · rw [compass_label_8_def, show (45 : ℚ) / (360 / 8) = ((1 : ℤ) : ℚ) by norm_num,
      pythonRound_intCast]
    decide

/-- Witness for C3: the bearing 45° is in `[0, 360)` and is labelled NE. -/
theorem compass_label_quantization_witness :
    ((0 : ℚ) ≤ 45 ∧ (45 : ℚ) < 360) ∧ compass_label 45 8 = "NE" :=
  ⟨⟨by norm_num, by norm_num⟩,
    (compass_label_quantization 45 (by norm_num) (by norm_num)).2.2.2.2.2.2⟩

/-- C2: at or above the zero threshold, `distance_and_direction` returns
the nearest-pair geodesic distance with its normalized initial bearing;
below the threshold it returns the geodesic distance and bearing between
the two representative points. -/
theorem distance_and_direction_cases {γ : Type} (L : GeoLib γ) (A B : γ)
    (t : ℚ) (cp : ℕ) :
    (t ≤ (L.inverse (L.nearestPoints A B).1 (L.nearestPoints A B).2).s12 →
      distance_and_direction L A B t cp =
        ((L.inverse (L.nearestPoints A B).1 (L.nearestPoints A B).2).s12,
         pyMod360 ((L.inverse (L.nearestPoints A B).1 (L.nearestPoints A B).2).azi1 + 360),
         compass_label
           (pyMod360 ((L.inverse (L.nearestPoints A B).1 (L.nearestPoints A B).2).azi1 + 360))
           cp)) ∧
    ((L.inverse (L.nearestPoints A B).1 (L.nearestPoints A B).2).s12 < t →
      distance_and_direction L A B t cp =
        ((L.inverse (L.representativePoint A) (L.representativePoint B)).s12,
         azimuth_degrees L (L.representativePoint A) (L.representativePoint B),
         compass_label
           (azimuth_degrees L (L.representativePoint A) (L.representativePoint B)) cp)) := by
  constructor
  · intro h
    unfold distance_and_direction
    rw [if_pos h]
  · intro h
    unfold distance_and_direction
    rw [if_neg (not_le.mpr h)]

/-- A concrete geometry library over a one-point geometry type, used to
instantiate the geographic theorems. -/
def geoLibAbove : GeoLib Unit :=
  { nearestPoints := fun _ _ => (⟨0, 0⟩, ⟨1, 1⟩)
    inverse := fun _ _ => ⟨5, 90⟩
    representativePoint := fun _ => ⟨2, 2⟩ }

/-- Witness for C2: a nearest-pair distance of 5 m against threshold 1 m
takes the nearest-pair branch, giving distance 5 m and bearing 90°. -/
theorem distance_and_direction_cases_witness :
    ((1 : ℚ) ≤ (geoLibAbove.inverse (geoLibAbove.nearestPoints () ()).1
        (geoLibAbove.nearestPoints () ()).2).s12) ∧
      distance_and_direction geoLibAbove () () 1 8 = (5, 90, "E") := by
  have h : (1 : ℚ) ≤ (geoLibAbove.inverse (geoLibAbove.nearestPoints () ()).1
      (geoLibAbove.nearestPoints () ()).2).s12 := by
    show (1 : ℚ) ≤ 5
    norm_num
  have h2 := (distance_and_direction_cases geoLibAbove () () 1 8).1 h
  have hm : pyMod360 ((90 : ℚ) + 360) = ((90 : ℤ) : ℚ) := by
    unfold pyMod360
    norm_num
  refine ⟨h, ?_⟩
  rw [h2]
  show ((5 : ℚ), pyMod360 ((90 : ℚ) + 360), compass_label (pyMod360 ((90 : ℚ) + 360)) 8) = _
  rw [hm, compass_label_8_def, show ((90 : ℤ) : ℚ) / (360 / 8) = ((2 : ℤ) : ℚ) by norm_num,
    pythonRound_intCast]
  norm_num
  decide

/-- C5: if the subject address does not geocode, `calculate_distances`
raises (returns `Except.error`) and produces no batch at all, whatever
the surrounding addresses are. -/
theorem calculate_distances_subject_fatal {γ : Type} (geocode : String → Option γ)
    (dd : γ → γ → Except String (ℚ × ℚ × String))
    (subject_address : String) (surrounding_addresses : List String)
    (h : geocode subject_address = none) :
    calculate_distances geocode dd subject_address surrounding_addresses =
      .error ("Could not geocode subject address: " ++ subject_address) := by
  unfold calculate_distances
  rw [h]

/-- Witness for C5: a geocoder that recognizes nothing fails fatally on
the subject address. -/
theorem calculate_distances_subject_fatal_witness :
    (fun (_ : String) => (none : Option Unit)) "1 Subject Rd" = none ∧
      calculate_distances (fun _ => (none : Option Unit))
          (fun _ _ => .ok (0, 0, "N")) "1 Subject Rd" ["2 Surround Ave"] =
        .error "Could not geocode subject address: 1 Subject Rd" :=
  ⟨rfl, calculate_distances_subject_fatal (fun _ => none)
    (fun _ _ => .ok (0, 0, "N")) "1 Subject Rd" ["2 Surround Ave"] rfl⟩

/-- The address multiset carried by an accumulator pair of the
`calculate_distances` loop. -/
def accAddresses (acc : List DistanceResult × List FailureRecord) : Multiset String :=
  (acc.1.map DistanceResult.address : Multiset String) +
    (acc.2.map FailureRecord.address : Multiset String)

theorem addrStep_geocode_none {γ : Type} {geocode : String → Option γ}
    {dd : γ → γ → Except String (ℚ × ℚ × String)} {sg : γ}
    {address : String} (acc : List DistanceResult × List FailureRecord)
    (hg : geocode address = none) :
    addrStep geocode dd sg acc address =
      (acc.1, acc.2 ++ [⟨address, "Geocoding failed"⟩]) := by
  unfold addrStep
  rw [hg]

theorem addrStep_dd_ok {γ : Type} {geocode : String → Option γ}
    {dd : γ → γ → Except String (ℚ × ℚ × String)} {sg g : γ}
    {address : String} {dm bd : ℚ} {dir : String}
    (acc : List DistanceResult × List FailureRecord)
    (hg : geocode address = some g) (hd : dd sg g = .ok (dm, bd, dir)) :
    addrStep geocode dd sg acc address =
      (acc.1 ++ [⟨address, round1 (dm * (328084/100000)), dir, round1 bd⟩], acc.2) := by
  unfold addrStep
  rw [hg]
  dsimp only
  rw [hd]

theorem addrStep_dd_error {γ : Type} {geocode : String → Option γ}
    {dd : γ → γ → Except String (ℚ × ℚ × String)} {sg g : γ}
    {address : String} {e : String}
    (acc : List DistanceResult × List FailureRecord)
    (hg : geocode address = some g) (hd : dd sg g = .error e) :
    addrStep geocode dd sg acc address =
      (acc.1, acc.2 ++ [⟨address, "Distance calculation failed: " ++ e⟩]) := by
  unfold addrStep
  rw [hg]
  dsimp only
  rw [hd]

theorem addrStep_addresses {γ : Type} (geocode : String → Option γ)
    (dd : γ → γ → Except String (ℚ × ℚ × String)) (sg : γ)
    (acc : List DistanceResult × List FailureRecord) (address : String) :
    accAddresses (addrStep geocode dd sg acc address) = accAddresses acc + {address} := by
  cases hg : geocode address with
  | none =>
    rw [addrStep_geocode_none acc hg]
    unfold accAddresses
    simp only [List.map_append, List.map_cons, List.map_nil, ← Multiset.coe_add,
      Multiset.coe_singleton]
    abel
  | some g =>
    cases hd : dd sg g with
    | ok v =>
      obtain ⟨dm, v2⟩ := v
      obtain ⟨bd, dir⟩ := v2
      rw [addrStep_dd_ok acc hg hd]
      unfold accAddresses
      simp only [List.map_append, List.map_cons, List.map_nil, ← Multiset.coe_add,
        Multiset.coe_singleton]
      abel
    | error e =>
      rw [addrStep_dd_error acc hg hd]
      unfold accAddresses
      simp only [List.map_append, List.map_cons, List.map_nil, ← Multiset.coe_add,
        Multiset.coe_singleton]
      abel

theorem foldl_addrStep_addresses {γ : Type} (geocode : String → Option γ)
    (dd : γ → γ → Except String (ℚ × ℚ × String)) (sg : γ)
    (l : List String) :
    ∀ acc : List DistanceResult × List FailureRecord,
      accAddresses (l.foldl (addrStep geocode dd sg) acc) =
        accAddresses acc + (l : Multiset String) := by
  induction l with
  | nil => intro acc; simp
  | cons a t ih =>
    intro acc
    rw [List.foldl_cons, ih, addrStep_addresses]
    simp only [← Multiset.cons_coe, ← Multiset.singleton_add]
    abel

theorem calculate_distances_subject_ok {γ : Type} (geocode : String → Option γ)
    (dd : γ → γ → Except String (ℚ × ℚ × String))
    (subject_address : String) (surrounding_addresses : List String) (sg : γ)
    (hg : geocode subject_address = some sg) :
    calculate_distances geocode dd subject_address surrounding_addresses =
      .ok ⟨subject_address,
        (surrounding_addresses.foldl (addrStep geocode dd sg) ([], [])).1,
        (surrounding_addresses.foldl (addrStep geocode dd sg) ([], [])).2⟩ := by
  unfold calculate_distances
  rw [hg]

/-- C1: whenever `calculate_distances` returns a batch, the input
surrounding addresses are exactly the addresses of `distances` plus the
addresses of `failed`, with multiplicity — each input entry lands in
exactly one of the two lists. -/
theorem calculate_distances_partition {γ : Type} (geocode : String → Option γ)
    (dd : γ → γ → Except String (ℚ × ℚ × String))
    (subject_address : String) (surrounding_addresses : List String)
    (batch : DistanceBatch)
    (h : calculate_distances geocode dd subject_address surrounding_addresses = .ok batch) :
    (batch.distances.map DistanceResult.address : Multiset String) +
        (batch.failed.map FailureRecord.address : Multiset String) =
      (surrounding_addresses : Multiset String) := by
  cases hg : geocode subject_address with
  | none =>
    rw [calculate_distances_subject_fatal geocode dd subject_address
      surrounding_addresses hg] at h
    exact absurd h (by simp)
  | some sg =>
    rw [calculate_distances_subject_ok geocode dd subject_address
      surrounding_addresses sg hg] at h
    rw [Except.ok.injEq] at h
    subst h
    have hfold := foldl_addrStep_addresses geocode dd sg surrounding_addresses ([], [])
    unfold accAddresses at hfold
    simpa using hfold

/-- The geocoder used by the C1 witness: fails on one address. -/
def geocodePartial : String → Option Unit := fun a => if a = "bad St" then none else some ()

/-- The distance oracle used by the C1 witness. -/
def ddConst : Unit → Unit → Except String (ℚ × ℚ × String) := fun _ _ => .ok (100, 90, "E")

/-- Witness for C1: with one succeeding and one failing surrounding
address, the two output lists partition the input. -/
theorem calculate_distances_partition_witness :
    calculate_distances geocodePartial ddConst "1 Subject Rd" ["2 Good Ave", "bad St"] =
      .ok ⟨"1 Subject Rd",
        [⟨"2 Good Ave", round1 (100 * (328084/100000)), "E", round1 90⟩],
        [⟨"bad St", "Geocoding failed"⟩]⟩ ∧
    (([⟨"2 Good Ave", round1 (100 * (328084/100000)), "E", round1 90⟩] :
          List DistanceResult).map DistanceResult.address : Multiset String) +
        (([⟨"bad St", "Geocoding failed"⟩] : List FailureRecord).map
          FailureRecord.address : Multiset String) =
      (["2 Good Ave", "bad St"] : Multiset String) := by
  have h1 : calculate_distances geocodePartial ddConst "1 Subject Rd"
      ["2 Good Ave", "bad St"] =
      .ok ⟨"1 Subject Rd",
        [⟨"2 Good Ave", round1 (100 * (328084/100000)), "E", round1 90⟩],
        [⟨"bad St", "Geocoding failed"⟩]⟩ := by
    rw [calculate_distances_subject_ok geocodePartial ddConst "1 Subject Rd"
      ["2 Good Ave", "bad St"] () rfl]
    rw [List.foldl_cons,
      @addrStep_dd_ok Unit geocodePartial ddConst () () "2 Good Ave" 100 90 "E" ([], []) rfl rfl,
      List.foldl_cons,
      @addrStep_geocode_none Unit geocodePartial ddConst () "bad St" _ rfl,
      List.foldl_nil]
    simp
  exact ⟨h1, calculate_distances_partition geocodePartial ddConst "1 Subject Rd"
    ["2 Good Ave", "bad St"] _ h1⟩

theorem distance_and_direction_bearing_shape {γ : Type} (L : GeoLib γ)
    (g1 g2 : γ) (zt : ℚ) (cp : ℕ) :
    ∃ x, (distance_and_direction L g1 g2 zt cp).2.1 = pyMod360 x := by
  unfold distance_and_direction
  dsimp only
  split
  · exact ⟨_, rfl⟩
  · unfold azimuth_degrees
    exact ⟨_, rfl⟩

theorem round1_bound {x : ℚ} (h0 : 0 ≤ x) (h1 : x < 360) :
    0 ≤ round1 x ∧ round1 x ≤ 360 := by
  unfold round1
  have ha := pythonRound_ge_floor (x * 10)
  have hb := pythonRound_le_floor_add_one (x * 10)
  have hf0 : (0 : ℤ) ≤ ⌊x * 10⌋ := Int.floor_nonneg.mpr (by linarith)
  have hf1 : ⌊x * 10⌋ < 3600 := Int.floor_lt.mpr (by push_cast; linarith)
  have hq0 : (0 : ℚ) ≤ (pythonRound (x * 10) : ℚ) := by exact_mod_cast (by omega : (0:ℤ) ≤ pythonRound (x * 10))
  have hq1 : (pythonRound (x * 10) : ℚ) ≤ 3600 := by
    exact_mod_cast (by omega : pythonRound (x * 10) ≤ 3600)
  constructor
  · linarith
  · linarith

theorem foldl_bearing_bound {γ : Type} (L : GeoLib γ) (geocode : String → Option γ)
    (sg : γ) (l : List String) :
    ∀ acc : List DistanceResult × List FailureRecord,
      (∀ r ∈ acc.1, 0 ≤ r.bearing_deg ∧ r.bearing_deg ≤ 360) →
      ∀ r ∈ (l.foldl (addrStep geocode (ddOf L) sg) acc).1,
        0 ≤ r.bearing_deg ∧ r.bearing_deg ≤ 360 := by
  induction l with
  | nil => intro acc hacc; simpa using hacc
  | cons a t ih =>
    intro acc hacc
    rw [List.foldl_cons]
    apply ih
    cases hg : geocode a with
    | none =>
      rw [addrStep_geocode_none acc hg]
      exact hacc
    | some g =>
      have hd : ddOf L sg g = .ok ((distance_and_direction L sg g 1 8).1,
          (distance_and_direction L sg g 1 8).2.1,
          (distance_and_direction L sg g 1 8).2.2) := rfl
      rw [addrStep_dd_ok acc hg hd]
      intro r hr
      rcases List.mem_append.mp hr with hmem | hmem
      · exact hacc r hmem
      · have hr2 := List.mem_singleton.mp hmem
        subst hr2
        obtain ⟨x, hx⟩ := distance_and_direction_bearing_shape L sg g 1 8
        show 0 ≤ round1 (distance_and_direction L sg g 1 8).2.1 ∧
          round1 (distance_and_direction L sg g 1 8).2.1 ≤ 360
        rw [hx]
        exact round1_bound (pyMod360_nonneg x) (pyMod360_lt x)

/-- C7 (amended): every `bearing_deg` produced by `calculate_distances`
lies in the closed interval `[0, 360]` — the underlying bearing is
normalized into `[0, 360)`, but rounding it to 1 decimal place can
produce exactly 360. -/
theorem bearing_deg_bounds {γ : Type} (L : GeoLib γ) (geocode : String → Option γ)
    (subject_address : String) (surrounding_addresses : List String)
    (batch : DistanceBatch)
    (h : calculate_distances geocode (ddOf L) subject_address surrounding_addresses =
      .ok batch) :
    ∀ r ∈ batch.distances, 0 ≤ r.bearing_deg ∧ r.bearing_deg ≤ 360 := by
  cases hg : geocode subject_address with
  | none =>
    rw [calculate_distances_subject_fatal geocode (ddOf L) subject_address
      surrounding_addresses hg] at h
    exact absurd h (by simp)
  | some sg =>
    rw [calculate_distances_subject_ok geocode (ddOf L) subject_address
      surrounding_addresses sg hg] at h
    rw [Except.ok.injEq] at h
    subst h
    exact foldl_bearing_bound L geocode sg surrounding_addresses ([], []) (by simp)

/-- A geocoder that resolves every address to the one-point geometry. -/
def geocodeAll : String → Option Unit := fun _ => some ()

/-- A geometry library whose geodesic inverse reports a bearing slightly
west of due north: azimuth -0.04°, which normalizes to 359.96°. -/
def geoLibNearNorth : GeoLib Unit :=
  { nearestPoints := fun _ _ => (⟨0, 0⟩, ⟨0, 0⟩)
    inverse := fun _ _ => ⟨100, -1/25⟩
    representativePoint := fun _ => ⟨0, 0⟩ }

/-- The `bearing_deg` fields of a `calculate_distances` result. -/
def batchBearings : Except String DistanceBatch → List ℚ
  | .ok b => b.distances.map DistanceResult.bearing_deg
  | .error _ => []

/-- Counterexample to C7 as stated: an azimuth of -0.04° normalizes to
the bearing 359.96°, whose 1-decimal rounding is exactly 360 — outside
`[0, 360)`. -/
theorem bearing_deg_counterexample :
    batchBearings (calculate_distances geocodeAll (ddOf geoLibNearNorth)
        "1 Subject Rd" ["2 Surround Ave"]) = [360] ∧ ¬ ((360 : ℚ) < 360) := by
  have hdd : distance_and_direction geoLibNearNorth () () 1 8 =
      (100, pyMod360 ((-1/25) + 360), compass_label (pyMod360 ((-1/25) + 360)) 8) := by
    rw [(distance_and_direction_cases geoLibNearNorth () () 1 8).1
      (by show (1 : ℚ) ≤ 100; norm_num)]
    rfl
  have hdd2 : ddOf geoLibNearNorth () () =
      .ok (100, pyMod360 ((-1/25) + 360), compass_label (pyMod360 ((-1/25) + 360)) 8) := by
    unfold ddOf
    rw [hdd]
  have hcalc : calculate_distances geocodeAll (ddOf geoLibNearNorth)
      "1 Subject Rd" ["2 Surround Ave"] =
      .ok ⟨"1 Subject Rd",
        [⟨"2 Surround Ave", round1 (100 * (328084/100000)),
          compass_label (pyMod360 ((-1/25) + 360)) 8, round1 (pyMod360 ((-1/25) + 360))⟩],
        []⟩ := by
    rw [calculate_distances_subject_ok geocodeAll (ddOf geoLibNearNorth)
      "1 Subject Rd" ["2 Surround Ave"] () rfl]
    rw [List.foldl_cons,
      @addrStep_dd_ok Unit geocodeAll (ddOf geoLibNearNorth) () () "2 Surround Ave"
        100 (pyMod360 ((-1/25) + 360)) (compass_label (pyMod360 ((-1/25) + 360)) 8)
        ([], []) rfl hdd2,
      List.foldl_nil]
    rfl
  rw [hcalc]
  have hm : pyMod360 ((-1/25) + 360) = 8999/25 := by
    unfold pyMod360
    norm_num
  have hb : round1 ((8999 : ℚ)/25) = 360 := by
    unfold round1 pythonRound
    norm_num
  refine ⟨?_, by norm_num⟩
  show [round1 (pyMod360 ((-1/25) + 360))] = [360]
  rw [hm, hb]

/-- Witness for C7 (amended): a bearing of 90° stays within `[0, 360]`. -/
theorem bearing_deg_bounds_witness :
    calculate_distances geocodeAll (ddOf geoLibAbove) "1 Subject Rd" ["2 Surround Ave"] =
      .ok ⟨"1 Subject Rd",
        [⟨"2 Surround Ave", round1 (5 * (328084/100000)),
          compass_label (pyMod360 ((90 : ℚ) + 360)) 8, round1 (pyMod360 ((90 : ℚ) + 360))⟩],
        []⟩ ∧
    (0 ≤ round1 (pyMod360 ((90 : ℚ) + 360)) ∧ round1 (pyMod360 ((90 : ℚ) + 360)) ≤ 360) := by
  have hdd : distance_and_direction geoLibAbove () () 1 8 =
      (5, pyMod360 ((90 : ℚ) + 360), compass_label (pyMod360 ((90 : ℚ) + 360)) 8) := by
    rw [(distance_and_direction_cases geoLibAbove () () 1 8).1
      (by show (1 : ℚ) ≤ 5; norm_num)]
    rfl
  have hdd2 : ddOf geoLibAbove () () =
      .ok (5, pyMod360 ((90 : ℚ) + 360), compass_label (pyMod360 ((90 : ℚ) + 360)) 8) := by
    unfold ddOf
    rw [hdd]
  have hcalc : calculate_distances geocodeAll (ddOf geoLibAbove)
      "1 Subject Rd" ["2 Surround Ave"] =
      .ok ⟨"1 Subject Rd",
        [⟨"2 Surround Ave", round1 (5 * (328084/100000)),
          compass_label (pyMod360 ((90 : ℚ) + 360)) 8, round1 (pyMod360 ((90 : ℚ) + 360))⟩],
        []⟩ := by
    rw [calculate_distances_subject_ok geocodeAll (ddOf geoLibAbove)
      "1 Subject Rd" ["2 Surround Ave"] () rfl]
    rw [List.foldl_cons,
      @addrStep_dd_ok Unit geocodeAll (ddOf geoLibAbove) () () "2 Surround Ave"
        5 (pyMod360 ((90 : ℚ) + 360)) (compass_label (pyMod360 ((90 : ℚ) + 360)) 8)
        ([], []) rfl hdd2,
      List.foldl_nil]
    rfl
  refine ⟨hcalc, ?_⟩
  have := bearing_deg_bounds geoLibAbove geocodeAll "1 Subject Rd" ["2 Surround Ave"] _ hcalc
  simpa using this ⟨"2 Surround Ave", round1 (5 * (328084/100000)),
    compass_label (pyMod360 ((90 : ℚ) + 360)) 8, round1 (pyMod360 ((90 : ℚ) + 360))⟩
    (by simp)

/-- A reachable session that is waiting for surrounding addresses. -/
def sessionAwaitingAddr : Session :=
  { initialSession with
      report_type := some "EDR"
      main_document := some "main doc text"
      surrounding_documents := ["surrounding doc text"]
      subject_address := some "123 Main St, Springfield, IL"
      section_content := some "section text"
      awaiting_addresses := true }

/-- Counterexample to C6 as stated: the 10-character entry
`"1234567890"` is not shorter than 10 characters, yet the handler
discards it (the code keeps only entries strictly longer than 10), so
the session stays in `awaiting_addresses` with no addresses stored. -/
theorem address_threshold_counterexample :
    parse_addresses (pyStrip "1234567890") = [] ∧
    ¬ ((pyStrip "1234567890").data.length < 10) ∧
    (handle_intelligent_chat sessionAwaitingAddr "1234567890" (.ok "sec")).awaiting_addresses
      = true ∧
    (handle_intelligent_chat sessionAwaitingAddr "1234567890" (.ok "sec")).surrounding_addresses
      = none := by
  decide

theorem long_entry_nonempty (a : String) :
    ((!(a == "")) && decide (10 < a.data.length)) = decide (10 < a.data.length) := by
  by_cases h : 10 < a.data.length
  · have ha : a ≠ "" := by
      intro he
      subst he
      simp at h
    simp [h, ha]
  · have hd : decide (10 < a.data.length) = false := by
      simp only [decide_eq_false_iff_not]
      exact h
    rw [hd, Bool.and_false]

/-- C6 (amended): a non-trigger chat message handled while
`awaiting_addresses` is split on commas, entries are stripped, and
exactly the entries longer than 10 characters survive; if any entry
survives the session stores them and moves to `awaiting_groundwater`
with `awaiting_addresses` cleared, otherwise the session is unchanged
(still `awaiting_addresses`, no addresses stored). -/
theorem address_collection_behavior (s : Session) (content : String)
    (out : Except String String)
    (hmain : s.main_document.isSome = true)
    (htrig : triggerHit s.report_type (pyStrip content) = false)
    (hawait : s.awaiting_addresses = true) :
    parse_addresses (pyStrip content) =
      ((pySplitComma (pyStrip content)).map pyStrip).filter
        (fun a => decide (10 < a.data.length)) ∧
    (parse_addresses (pyStrip content) ≠ [] →
      handle_intelligent_chat s content out =
        { s with surrounding_addresses := some (parse_addresses (pyStrip content)),
                 awaiting_addresses := false, awaiting_groundwater := true }) ∧
    (parse_addresses (pyStrip content) = [] →
      handle_intelligent_chat s content out = s) := by
  refine ⟨?_, ?_, ?_⟩
  · unfold parse_addresses
    exact List.filter_congr (fun a _ => long_entry_nonempty a)
  · intro hne
    unfold handle_intelligent_chat
    repeat' split
    all_goals simp_all [List.isEmpty_iff]
  · intro hemp
    unfold handle_intelligent_chat
    repeat' split
    all_goals simp_all [List.isEmpty_iff]

/-- Witness for C6 (amended): two comma-separated entries of lengths 15
and 11 both survive and the session advances. -/
theorem address_collection_behavior_witness :
    sessionAwaitingAddr.main_document.isSome = true ∧
    triggerHit sessionAwaitingAddr.report_type
      (pyStrip "123 Main Street, Springfield") = false ∧
    sessionAwaitingAddr.awaiting_addresses = true ∧
    handle_intelligent_chat sessionAwaitingAddr "123 Main Street, Springfield" (.ok "sec") =
      { sessionAwaitingAddr with
          surrounding_addresses := some ["123 Main Street", "Springfield"],
          awaiting_addresses := false, awaiting_groundwater := true } := by
  refine ⟨by decide, by decide, by decide, ?_⟩
  have h := (address_collection_behavior sessionAwaitingAddr "123 Main Street, Springfield"
    (.ok "sec") (by decide) (by decide) (by decide)).2.1 (by decide)
  rw [h]
  have : parse_addresses (pyStrip "123 Main Street, Springfield") =
      ["123 Main Street", "Springfield"] := by decide
  rw [this]

/-- C8: when the groundwater branch runs on a recognized direction and
the distance-computation / generation `try` block raises, the handler
clears `awaiting_groundwater` — the session is not left stuck. -/
theorem groundwater_error_clears_flag (s : Session) (content : String) (e : String)
    (hmain : s.main_document.isSome = true)
    (htrig : triggerHit s.report_type (pyStrip content) = false)
    (haddr : s.awaiting_addresses = false)
    (hgw : s.awaiting_groundwater = true)
    (hdir : (extract_groundwater_direction (pyStrip content)).isSome = true) :
    (handle_intelligent_chat s content (.error e)).awaiting_groundwater = false := by
  obtain ⟨d, hd⟩ := Option.isSome_iff_exists.mp hdir
  unfold handle_intelligent_chat
  repeat' split
  all_goals simp_all

/-- A reachable session that is waiting for the groundwater direction. -/
def sessionAwaitingGw : Session :=
  { initialSession with
      report_type := some "EDR"
      main_document := some "main doc text"
      surrounding_documents := ["surrounding doc text"]
      subject_address := some "123 Main St, Springfield, IL"
      section_content := some "section text"
      surrounding_addresses := some ["456 Oak St, Springfield, IL"]
      awaiting_groundwater := true }

/-- Witness for C8: replying "northeast" while a generation error is
raised still clears `awaiting_groundwater`. -/
theorem groundwater_error_clears_flag_witness :
    (sessionAwaitingGw.awaiting_groundwater = true ∧
      (extract_groundwater_direction (pyStrip "northeast")).isSome = true) ∧
    (handle_intelligent_chat sessionAwaitingGw "northeast"
      (.error "generation failed")).awaiting_groundwater = false := by
  refine ⟨⟨by decide, by decide⟩, ?_⟩
  exact groundwater_error_clears_flag sessionAwaitingGw "northeast" "generation failed"
    (by decide) (by decide) (by decide) (by decide) (by decide)

theorem isPrefixOf_of_append (a b : List Char) :
    ∀ l : List Char, (a ++ b).isPrefixOf l = true → a.isPrefixOf l = true := by
  induction a with
  | nil => intro l _; cases l <;> rfl
  | cons x xs ih =>
    intro l h
    cases l with
    | nil => simp [List.isPrefixOf] at h
    | cons y t =>
      simp only [List.cons_append, List.isPrefixOf, Bool.and_eq_true] at h ⊢
      exact ⟨h.1, ih t h.2⟩

theorem substrList_of_append (n1 n2 : List Char) :
    ∀ h : List Char, substrList (n1 ++ n2) h = true → substrList n1 h = true := by
  intro h
  induction h with
  | nil =>
    intro hh
    unfold substrList at hh ⊢
    simp at hh
    simp [hh.1]
  | cons c t ih =>
    intro hh
    unfold substrList at hh ⊢
    simp only [Bool.or_eq_true] at hh ⊢
    rcases hh with h1 | h2
    · exact .inl (isPrefixOf_of_append n1 n2 (c :: t) h1)
    · exact .inr (ih h2)

theorem pyIn_north_of_northeast {t : String} (h : pyIn "northeast" t = true) :
    pyIn "north" t = true := by
  unfold pyIn at h ⊢
  exact substrList_of_append "north".data "east".data t.data h

theorem pyIn_north_of_northwest {t : String} (h : pyIn "northwest" t = true) :
    pyIn "north" t = true := by
  unfold pyIn at h ⊢
  exact substrList_of_append "north".data "west".data t.data h

theorem pyIn_south_of_southeast {t : String} (h : pyIn "southeast" t = true) :
    pyIn "south" t = true := by
  unfold pyIn at h ⊢
  exact substrList_of_append "south".data "east".data t.data h

theorem pyIn_south_of_southwest {t : String} (h : pyIn "southwest" t = true) :
    pyIn "south" t = true := by
  unfold pyIn at h ⊢
  exact substrList_of_append "south".data "west".data t.data h

theorem extract_of_north {text : String} (h : pyIn "north" (pyLower text) = true) :
    extract_groundwater_direction text = some "N" := by
  unfold extract_groundwater_direction direction_patterns
  dsimp only
  rw [List.find?_cons_of_pos _ (by simpa using h)]
  rfl

theorem extract_of_south {text : String} (h : pyIn "south" (pyLower text) = true)
    (hn : pyIn "north" (pyLower text) = false) :
    extract_groundwater_direction text = some "S" := by
  unfold extract_groundwater_direction direction_patterns
  dsimp only
  rw [List.find?_cons_of_neg _ (by simpa using hn)]
  rw [List.find?_cons_of_pos _ (by simpa using h)]
  rfl

/-- Counterexample to C10 as stated: the message
`"northeast southeast"` contains the word "southeast", but the
extraction returns "N" (the earlier pattern "north" matches first), not
the claimed "S". -/
theorem groundwater_direction_counterexample :
    pyIn "southeast" (pyLower "northeast southeast") = true ∧
    extract_groundwater_direction "northeast southeast" = some "N" ∧
    ("N" : String) ≠ "S" := by
  refine ⟨by decide, by decide, by decide⟩

/-- C10 (amended): patterns are tested in the fixed insertion order with
first-match-wins; a message containing "northeast" or "northwest" always
yields "N"; one containing "southeast" or "southwest" yields "S" when it
does not also contain "north" (and "N" otherwise) — never the ordinals
"NE"/"NW"/"SE"/"SW". -/
theorem compound_direction_words (text : String) :
    extract_groundwater_direction text =
      (direction_patterns.find? (fun p => pyIn p.1 (pyLower text))).map Prod.snd ∧
    (pyIn "northeast" (pyLower text) = true →
      extract_groundwater_direction text = some "N") ∧
    (pyIn "northwest" (pyLower text) = true →
      extract_groundwater_direction text = some "N") ∧
    (pyIn "southeast" (pyLower text) = true →
      (extract_groundwater_direction text = some "N" ∨
        extract_groundwater_direction text = some "S") ∧
      (pyIn "north" (pyLower text) = false →
        extract_groundwater_direction text = some "S")) ∧
    (pyIn "southwest" (pyLower text) = true →
      (extract_groundwater_direction text = some "N" ∨
        extract_groundwater_direction text = some "S") ∧
      (pyIn "north" (pyLower text) = false →
        extract_groundwater_direction text = some "S")) := by
  refine ⟨rfl, ?_, ?_, ?_, ?_⟩
  · intro h
    exact extract_of_north (pyIn_north_of_northeast h)
  · intro h
    exact extract_of_north (pyIn_north_of_northwest h)
  · intro h
    have hs := pyIn_south_of_southeast h
    constructor
    · cases hn : pyIn "north" (pyLower text) with
      | true => exact .inl (extract_of_north hn)
      | false => exact .inr (extract_of_south hs hn)
    · intro hn
      exact extract_of_south hs hn
  · intro h
    have hs := pyIn_south_of_southwest h
    constructor
    · cases hn : pyIn "north" (pyLower text) with
      | true => exact .inl (extract_of_north hn)
      | false => exact .inr (extract_of_south hs hn)
    · intro hn
      exact extract_of_south hs hn

/-- Witness for C10 (amended): "flows southwest" contains "southwest"
and no "north", so the extraction yields "S". -/
theorem compound_direction_words_witness :
    (pyIn "southwest" (pyLower "flows southwest") = true ∧
      pyIn "north" (pyLower "flows southwest") = false) ∧
    extract_groundwater_direction "flows southwest" = some "S" := by
  refine ⟨⟨by decide, by decide⟩, ?_⟩
  exact ((compound_direction_words "flows southwest").2.2.2.2 (by decide)).2 (by decide)

/-- Auxiliary inductive invariant: `awaiting_addresses` is only set while
no surrounding addresses are stored, and `awaiting_groundwater` only
while they are. -/
def SessionInv (s : Session) : Prop :=
  (s.awaiting_addresses = true → addrTruthy s.surrounding_addresses = false) ∧
  (s.awaiting_groundwater = true → addrTruthy s.surrounding_addresses = true)

theorem sessionInv_initial : SessionInv initialSession := by
  constructor <;> intro h <;> simp_all [initialSession]

theorem sessionInv_step (s : Session) (e : Event) (h : SessionInv s) :
    SessionInv (step s e) := by
  obtain ⟨h1, h2⟩ := h
  cases e with
  | clear_event => exact sessionInv_initial
  | file_upload rt o =>
    show SessionInv (process_pdf s rt o)
    unfold process_pdf
    dsimp only
    by_cases he : o.extract_ok = false
    · rw [if_pos he]; exact ⟨h1, h2⟩
    rw [if_neg he]
    by_cases hf : o.format_ok = false
    · rw [if_pos hf]; exact ⟨h1, h2⟩
    rw [if_neg hf]
    by_cases hm : s.main_document.isSome = false
    · rw [if_pos hm]
      cases hmr : o.mainResult with
      | error err => exact ⟨h1, h2⟩
      | ok r =>
        cases r with
        | dict sc sa => exact ⟨h1, h2⟩
        | plain t => exact ⟨h1, h2⟩
    · rw [if_neg hm]; exact ⟨h1, h2⟩
  | chat content out =>
    show SessionInv (handle_intelligent_chat s content out)
    unfold handle_intelligent_chat
    dsimp only
    by_cases hm : s.main_document.isSome = false
    · rw [if_pos hm]; exact ⟨h1, h2⟩
    rw [if_neg hm]
    by_cases ht : triggerHit s.report_type (pyStrip content) = true
    · rw [if_pos ht]
      by_cases hsc : optStrTruthy s.section_content = false
      · rw [if_pos hsc]; exact ⟨h1, h2⟩
      rw [if_neg hsc]
      by_cases hsa : optStrTruthy s.subject_address = false
      · rw [if_pos hsa]; exact ⟨h1, h2⟩
      rw [if_neg hsa]
      by_cases hsd : s.surrounding_documents.isEmpty = true
      · rw [if_pos hsd]; exact ⟨h1, h2⟩
      rw [if_neg hsd]
      by_cases hat : addrTruthy s.surrounding_addresses = false
      · rw [if_pos hat]
        exact ⟨fun _ => hat, fun hg => h2 hg⟩
      · rw [if_neg hat]
        have htrue : addrTruthy s.surrounding_addresses = true := by
          cases hx : addrTruthy s.surrounding_addresses
          · exact absurd hx hat
          · rfl
        exact ⟨fun ha => h1 ha, fun _ => htrue⟩
    rw [if_neg ht]
    by_cases haa : s.awaiting_addresses = true
    · rw [if_pos haa]
      by_cases hne : (!(parse_addresses (pyStrip content)).isEmpty) = true
      · rw [if_pos hne]
        exact ⟨fun hfalse => absurd hfalse (by simp), fun _ => hne⟩
      · rw [if_neg hne]; exact ⟨h1, h2⟩
    rw [if_neg haa]
    by_cases hgw : s.awaiting_groundwater = true
    · rw [if_pos hgw]
      cases hx : extract_groundwater_direction (pyStrip content) with
      | some d =>
        cases out with
        | ok r => exact ⟨fun ha => h1 ha, fun hg => absurd hg (by simp)⟩
        | error e => exact ⟨fun ha => h1 ha, fun hg => absurd hg (by simp)⟩
      | none => exact ⟨h1, h2⟩
    · rw [if_neg hgw]; exact ⟨h1, h2⟩

/-- C9: in every session reachable from the initial session through any
sequence of uploads, chat messages and clears, the two awaiting-flags
are never both set. -/
theorem awaiting_flags_mutually_exclusive (evs : List Event) :
    ¬ ((runEvents evs).awaiting_addresses = true ∧
        (runEvents evs).awaiting_groundwater = true) := by
  have hinv : SessionInv (runEvents evs) := by
    unfold runEvents
    have hgen : ∀ s : Session, SessionInv s → SessionInv (evs.foldl step s) := by
      induction evs with
      | nil => intro s hs; exact hs
      | cons e t ih => intro s hs; exact ih (step s e) (sessionInv_step s e hs)
    exact hgen initialSession sessionInv_initial
  rintro ⟨ha, hg⟩
  have hx := hinv.1 ha
  have hy := hinv.2 hg
  simp_all

end EnvAssess
